import Mathlib

/-!
Verification of the smart-checkins gating / orchestration core.

Shallow embedding of the TypeScript sources:
  * `src/gating.ts`    — `checkGating`, `isInTimeRange`, time helpers
  * `src/engine/index.ts` — `makeDecision`, `fallbackDecision`, urgency clamping
  * `src/collectors/index.ts` — `collectContext` (settle-all join over three fetches)
  * `src/db.ts`        — `snoozeItem` upsert, `getLastCheckinTimestamp`
  * `src/scheduler.ts` — `runCycle` (single-flight guard, pause flag, pipeline,
                          catch-all error handling), plus the two trigger entry
                          points (`main` startup call, the /force handler).

JavaScript numbers are modelled as rationals (ℚ); `Math.round` is
`jsRound q = ⌊q + 1/2⌋` (ties toward +∞, as in JS).  Wall-clock instants carry
the day of week, the minutes elapsed since local midnight (rational, so that
seconds are representable) and an absolute epoch-milliseconds value.
Fallible collaborators are modelled as `Except String` results supplied by an
environment record; side effects of the orchestrator are collected in an
explicit trace.
-/

namespace SmartCheckins

/-- Hours/minutes pair, the parsed form of an "HH:MM" string (`parseTime`). -/
structure HM where
  hours : Nat
  minutes : Nat
deriving DecidableEq, Repr

/-- A `{start, end}` time window from the gating config. -/
structure TimeRange where
  start : HM
  «end» : HM
deriving DecidableEq, Repr

inductive WeekendMode where
  | quiet
  | reduced
  | normal
deriving DecidableEq, Repr

/-- `GatingConfig` from `src/types.ts`. -/
structure GatingConfig where
  cooldownMinutes : ℚ
  urgencyOverrideThreshold : ℚ
  quietHours : TimeRange
  focusHours : TimeRange
  pickupTimes : List HM
  pickupReminderMinutes : ℚ
  weekendMode : WeekendMode
  weekendUrgencyThreshold : ℚ
deriving DecidableEq, Repr

/-- `GatingResult` from `src/types.ts`: tagged union PROCEED / BLOCKED(reason). -/
inductive GatingResult where
  | PROCEED
  | BLOCKED (reason : String)
deriving DecidableEq, Repr

def GatingResult.isBlocked : GatingResult → Bool
  | .PROCEED => false
  | .BLOCKED _ => true

/-- A wall-clock instant as the gating code observes it: `getDay()`,
the minutes-since-midnight value recovered by `formatTime`/`timeToMinutes`
(rational so seconds are representable; `getHours`/`getMinutes` floor it),
and the absolute `getTime()` epoch value in milliseconds. -/
structure Instant where
  dayOfWeek : Nat
  minutesOfDay : ℚ
  epochMs : ℚ
deriving DecidableEq, Repr

/-- `timeToMinutes` composed with `parseTime`: minutes since midnight. -/
def timeToMinutes (t : HM) : ℤ :=
  t.hours * 60 + t.minutes

/-- `padStart(2, "0")` on a decimal rendering. -/
def pad2 (n : Nat) : String :=
  if n < 10 then "0" ++ toString n else toString n

/-- `formatTime`: the "HH:MM" rendering used inside reason strings. -/
def formatHM (t : HM) : String :=
  pad2 t.hours ++ ":" ++ pad2 t.minutes

/-- `Math.round` in JavaScript: nearest integer, ties toward +∞. -/
def jsRound (q : ℚ) : ℤ :=
  ⌊q + 1/2⌋

/-- `isInTimeRange` from `src/gating.ts`, on minute counts. -/
def isInTimeRange (currentMin startMin endMin : ℤ) : Bool :=
  if startMin > endMin then
    decide (currentMin ≥ startMin) || decide (currentMin < endMin)
  else
    decide (currentMin ≥ startMin) && decide (currentMin < endMin)

/-- The minute count `formatTime`/`timeToMinutes` extract from `now`. -/
def currentMinutes (now : Instant) : ℤ :=
  ⌊now.minutesOfDay⌋

/-- Whether a configured window is active at `now` (the `isInTimeRange` call
as `checkGating` makes it). -/
def rangeActive (now : Instant) (r : TimeRange) : Bool :=
  isInTimeRange (currentMinutes now) (timeToMinutes r.start) (timeToMinutes r.«end»)

/-- `minutesUntilTime`: signed distance in minutes from `now` to today's
occurrence of the target wall-clock time (seconds of `now` included, since
the target has its seconds zeroed). -/
def minutesUntilTime (now : Instant) (t : HM) : ℚ :=
  (timeToMinutes t : ℚ) - now.minutesOfDay

/-- The `for`-loop over `config.pickupTimes`: first pickup time whose window
`[pickupTime - reminderMinutes, pickupTime]` contains `now`. -/
def findPickupBlock (now : Instant) (reminder : ℚ) : List HM → Option HM
  | [] => none
  | t :: ts =>
    let d := minutesUntilTime now t
    if 0 ≤ d ∧ d ≤ reminder then some t else findPickupBlock now reminder ts

/-- Reason string of gating rule 1. -/
def focusReason (config : GatingConfig) : String :=
  "Focus hours (" ++ formatHM config.focusHours.start ++ "–" ++
    formatHM config.focusHours.«end» ++ "). Zero interruptions."

/-- Reason string of gating rule 2. -/
def quietReason (config : GatingConfig) : String :=
  "Quiet hours (" ++ formatHM config.quietHours.start ++ "–" ++
    formatHM config.quietHours.«end» ++ "). Notifications held until morning."

/-- Reason string of gating rule 3. -/
def weekendReason : String :=
  "Weekend quiet mode. All notifications paused."

/-- Reason string of gating rule 4. -/
def pickupReason (t : HM) : String :=
  "Pickup window (" ++ formatHM t ++ "). Only gentle reminders allowed."

/-- Reason string of gating rule 5. -/
def cooldownReason (minutesSince cooldown : ℚ) : String :=
  "Cooldown: last check-in was " ++ toString (jsRound minutesSince) ++
    " minutes ago (minimum: " ++ toString cooldown ++ " minutes)."

/-- `checkGating` from `src/gating.ts`.  `lastCheckin` is the epoch-ms value of
the most recent checkin-log row (`null` when the log is empty). -/
def checkGating (config : GatingConfig) (now : Instant) (lastCheckin : Option ℚ) :
    GatingResult :=
  let isWeekend : Bool := now.dayOfWeek == 0 || now.dayOfWeek == 6
  -- 1. Focus hours — absolute, no override
  if rangeActive now config.focusHours then
    .BLOCKED (focusReason config)
  -- 2. Quiet hours — absolute, no override
  else if rangeActive now config.quietHours then
    .BLOCKED (quietReason config)
  -- 3. Weekend mode
  else if isWeekend && config.weekendMode == .quiet then
    .BLOCKED weekendReason
  else
    -- 4. Pickup window
    match findPickupBlock now config.pickupReminderMinutes config.pickupTimes with
    | some t => .BLOCKED (pickupReason t)
    | none =>
      -- 5. Cooldown check
      match lastCheckin with
      | some last =>
        let minutesSinceLastCheckin := (now.epochMs - last) / (1000 * 60)
        if minutesSinceLastCheckin < config.cooldownMinutes then
          .BLOCKED (cooldownReason minutesSinceLastCheckin config.cooldownMinutes)
        else
          .PROCEED
      | none => .PROCEED

/-- `DEFAULT_GATING_CONFIG` from `src/config.ts`. -/
def DEFAULT_GATING_CONFIG : GatingConfig :=
  { cooldownMinutes := 120
    urgencyOverrideThreshold := 9
    quietHours := { start := ⟨22, 0⟩, «end» := ⟨7, 0⟩ }
    focusHours := { start := ⟨7, 0⟩, «end» := ⟨10, 0⟩ }
    pickupTimes := []
    pickupReminderMinutes := 30
    weekendMode := .reduced
    weekendUrgencyThreshold := 7 }

/-- `getLastCheckinTimestamp` from `src/db.ts`: the maximal timestamp of the
checkin log (`ORDER BY timestamp DESC LIMIT 1`), `null` on an empty log. -/
def getLastCheckinTimestamp (timestamps : List String) : Option String :=
  match timestamps with
  | [] => none
  | t :: ts =>
    match getLastCheckinTimestamp ts with
    | none => some t
    | some u => some (if t < u then u else t)

/-! ## Decision engine (`src/engine/index.ts`) -/

/-- `Decision` from `src/types.ts`: "NONE" | "TEXT" | "CALL". -/
inductive Decision where
  | NONE
  | TEXT
  | CALL
deriving DecidableEq, Repr

/-- The string form of a `Decision`, as interpolated into log / action text. -/
def Decision.str : Decision → String
  | .NONE => "NONE"
  | .TEXT => "TEXT"
  | .CALL => "CALL"

/-- `DecisionResult` from `src/types.ts`. -/
structure DecisionResult where
  decision : Decision
  urgency : ℚ
  summary : String
  reasoning : String
  actionButtons : List String
  spokenBriefing : Option String
deriving DecidableEq, Repr

/-- The raw `toolUse.input` payload as `makeDecision` reads it.  `decision` is
an arbitrary string until validated; `urgency` is an arbitrary JS number;
`actionButtons` is `none` when the field is absent (the `|| []` default). -/
structure RawToolInput where
  decision : String
  urgency : ℚ
  summary : String
  reasoning : String
  actionButtons : Option (List String)
  spokenBriefing : Option String
deriving DecidableEq, Repr

/-- Outcome of the upstream call inside `makeDecision`: the API call threw,
or returned no `tool_use` block, or returned a raw tool input. -/
inductive EngineOutcome where
  | apiError (msg : String)
  | noToolUse
  | toolInput (input : RawToolInput)
deriving DecidableEq, Repr

/-- `fallbackDecision` from `src/engine/index.ts`. -/
def fallbackDecision (reason : String) : DecisionResult :=
  { decision := .NONE
    urgency := 0
    summary := "Decision engine error: " ++ reason
    reasoning := "Fallback due to error: " ++ reason
    actionButtons := []
    spokenBriefing := none }

/-- The `validDecisions` list checked by `makeDecision`. -/
def validDecisions : List String := ["NONE", "TEXT", "CALL"]

/-- The `input.decision as Decision` cast, guarded by the membership check:
`some` exactly on the three valid strings. -/
def decisionOfString (s : String) : Option Decision :=
  if s = "NONE" then some .NONE
  else if s = "TEXT" then some .TEXT
  else if s = "CALL" then some .CALL
  else none

/-- `makeDecision` from `src/engine/index.ts`, as a function of the upstream
outcome: validation of the decision string, urgency rounding/clamping
(`Math.max(1, Math.min(10, Math.round(input.urgency)))`), `actionButtons`
defaulting, and the fallback on API error / missing tool use / invalid
decision string. -/
def makeDecision (outcome : EngineOutcome) : DecisionResult :=
  match outcome with
  | .apiError msg => fallbackDecision ("API error: " ++ msg)
  | .noToolUse => fallbackDecision "Claude did not return structured response"
  | .toolInput input =>
    match decisionOfString input.decision with
    | none => fallbackDecision ("Invalid decision: " ++ input.decision)
    | some d =>
      { decision := d
        urgency := ((max 1 (min 10 (jsRound input.urgency)) : ℤ) : ℚ)
        summary := input.summary
        reasoning := input.reasoning
        actionButtons := input.actionButtons.getD []
        spokenBriefing := input.spokenBriefing }

/-! ## Data-collection pipeline (`src/collectors/index.ts`) -/

/-- Sender field of an email (`from: {name, address}`). -/
structure EmailFrom where
  name : String
  address : String
deriving DecidableEq, Repr

/-- `PartnershipInfo` from `src/types.ts`. -/
structure PartnershipInfo where
  id : ℤ
  domain : String
  companyName : String
  lastContact : String
  quoteAmount : Option ℚ
  contactCount : ℤ
  status : String
deriving DecidableEq, Repr

/-- `EmailMessage` from `src/types.ts` (optional fields filled by enrichment). -/
structure EmailMessage where
  id : String
  conversationId : String
  subject : String
  «from» : EmailFrom
  receivedDateTime : String
  bodyPreview : String
  isRead : Bool
  hasReply : Option Bool := none
  partnershipInfo : Option PartnershipInfo := none
deriving DecidableEq, Repr

/-- `{dateTime, timeZone}` pair of a Graph calendar event. -/
structure EventDateTime where
  dateTime : String
  timeZone : String
deriving DecidableEq, Repr

/-- `CalendarEvent` from `src/types.ts`. -/
structure CalendarEvent where
  id : String
  subject : String
  start : EventDateTime
  «end» : EventDateTime
  isAllDay : Bool
  location : Option String
deriving DecidableEq, Repr

inductive Importance where
  | low
  | normal
  | high
deriving DecidableEq, Repr

/-- `TodoTask` from `src/types.ts`. -/
structure TodoTask where
  id : String
  listId : String
  listName : String
  title : String
  dueDateTime : Option String
  importance : Importance
  status : String
deriving DecidableEq, Repr

/-- `MemoryEntry` from `src/types.ts`. -/
structure MemoryEntry where
  id : ℤ
  key : String
  value : String
  category : String
  updatedAt : String
deriving DecidableEq, Repr

/-- `CheckinLogEntry` from `src/types.ts`. -/
structure CheckinLogEntry where
  id : ℤ
  timestamp : String
  decision : Decision
  urgency : ℚ
  summary : String
  sourcesAvailable : String
deriving DecidableEq, Repr

/-- `CollectedContext` from `src/types.ts`. -/
structure CollectedContext where
  emails : List EmailMessage
  calendar : List CalendarEvent
  tasks : List TodoTask
  partnerships : List PartnershipInfo
  memory : List MemoryEntry
  recentCheckins : List CheckinLogEntry
  collectedAt : String
  sourcesAvailable : List String
  sourceErrors : List String
deriving Repr

/-- `collectContext` from `src/collectors/index.ts`: the three fetches are
settled independently (`Promise.allSettled`); each fulfilled source pushes its
name to `sourcesAvailable`, each rejected one pushes `"name: message"` to
`sourceErrors` and contributes an empty item list; local store reads always
succeed and append `"local_db"`. -/
def collectContext
    (emailResult : Except String (List EmailMessage))
    (calendarResult : Except String (List CalendarEvent))
    (taskResult : Except String (List TodoTask))
    (partnerships : List PartnershipInfo)
    (memory : List MemoryEntry)
    (recentCheckins : List CheckinLogEntry)
    (collectedAt : String) : CollectedContext :=
  let emailPart : List EmailMessage × List String × List String :=
    match emailResult with
    | .ok v => (v, ["email"], [])
    | .error m => ([], [], ["email: " ++ m])
  let calendarPart : List CalendarEvent × List String × List String :=
    match calendarResult with
    | .ok v => (v, ["calendar"], [])
    | .error m => ([], [], ["calendar: " ++ m])
  let taskPart : List TodoTask × List String × List String :=
    match taskResult with
    | .ok v => (v, ["tasks"], [])
    | .error m => ([], [], ["tasks: " ++ m])
  { emails := emailPart.1
    calendar := calendarPart.1
    tasks := taskPart.1
    partnerships := partnerships
    memory := memory
    recentCheckins := recentCheckins
    collectedAt := collectedAt
    sourcesAvailable :=
      emailPart.2.1 ++ calendarPart.2.1 ++ taskPart.2.1 ++ ["local_db"]
    sourceErrors := emailPart.2.2 ++ calendarPart.2.2 ++ taskPart.2.2 }

/-! ## Snooze store (`src/db.ts`) -/

/-- The CHECK-constrained `source_type` column. -/
inductive SourceType where
  | email
  | task
  | calendar
deriving DecidableEq, Repr

/-- One row of the `snoozed_items` table (the AUTOINCREMENT id is immaterial
to the upsert semantics and omitted). -/
structure SnoozedRow where
  sourceType : SourceType
  sourceId : String
  snoozeUntil : String
  createdAt : String
deriving DecidableEq, Repr

/-- Whether a row belongs to the logical item `(ty, sid)`. -/
def rowMatches (ty : SourceType) (sid : String) (r : SnoozedRow) : Bool :=
  r.sourceType == ty && r.sourceId == sid

/-- `snoozeItem` from `src/db.ts`:
`INSERT ... ON CONFLICT(source_type, source_id) DO UPDATE SET snooze_until = ?`.
If a row for the `(source_type, source_id)` pair exists (the UNIQUE key), its
`snooze_until` is updated in place; otherwise a fresh row is inserted. -/
def snoozeItem (store : List SnoozedRow) (ty : SourceType) (sid : String)
    (snoozeUntil : String) (insertedAt : String) : List SnoozedRow :=
  if store.any (rowMatches ty sid) then
    store.map fun r =>
      if rowMatches ty sid r then { r with snoozeUntil := snoozeUntil } else r
  else
    store ++ [{ sourceType := ty, sourceId := sid, snoozeUntil := snoozeUntil,
                createdAt := insertedAt }]

/-! ## Cycle orchestrator (`src/scheduler.ts`) -/

/-- `CycleResult` from `src/types.ts` (optional fields absent on blocked or
errored cycles). -/
structure CycleResult where
  cycleId : String
  startedAt : String
  completedAt : String
  gatingResult : GatingResult
  context : Option CollectedContext := none
  decision : Option DecisionResult := none
  actionTaken : Option String := none
deriving Repr

/-- The module-level mutable state of `src/scheduler.ts`: the in-memory
single-flight guard `_isRunning` and the `_lastCycleResult` pointer. -/
structure SchedulerState where
  isRunning : Bool
  lastCycleResult : Option CycleResult
deriving Repr

/-- The optional `options` argument of `runCycle` (`{skipGating?: boolean}`).
`runCycle()` with no argument corresponds to `none`; `options?.skipGating`
is falsy both for `none` and for `skipGating := false`. -/
structure CycleOptions where
  skipGating : Bool := false
deriving DecidableEq, Repr

/-- Observable collaborator invocations of one `runCycle` call, in order. -/
inductive Effect where
  | gatingEvaluated
  | fetchedSources
  | enriched
  | emailMetaStored (emailId : String)
  | snoozesCleaned
  | decisionRequested
  | notifiedDecision
  | notifiedNone
  | checkinLogged
  | plainNotifyAttempted
deriving DecidableEq, Repr

/-- Environment of one `runCycle` invocation: the clock / id reads and the
result each fallible collaborator would produce if invoked.  `plainNotify`
is the error-path `sendPlainNotification`, whose own failure the catch
handler swallows. -/
structure EnvCycle where
  nowIso : String
  cycleId : String
  paused : Bool
  gatingConfig : GatingConfig
  now : Instant
  lastCheckin : Option ℚ
  emailResult : Except String (List EmailMessage)
  calendarResult : Except String (List CalendarEvent)
  taskResult : Except String (List TodoTask)
  partnerships : List PartnershipInfo
  memory : List MemoryEntry
  recentCheckins : List CheckinLogEntry
  enrichResult : List EmailMessage → Except String (List EmailMessage)
  cleanResult : Except String ℤ
  engineOutcome : EngineOutcome
  notifyDecisionResult : Except String Unit
  notifyNoneResult : Except String Unit
  logCheckinResult : Except String Unit
  plainNotifyResult : Except String Unit

/-- The `try` block of `runCycle`.  Returns the produced `CycleResult`
together with a flag saying whether the full pipeline completed (only then
does the code update `_lastCycleResult`), or the thrown error message; plus
the trace of collaborator invocations made so far. -/
def runCycleBody (env : EnvCycle) (options : Option CycleOptions) :
    Except String (CycleResult × Bool) × List Effect :=
  -- Check if bot is paused
  if env.paused then
    (.ok ({ cycleId := env.cycleId, startedAt := env.nowIso, completedAt := env.nowIso,
            gatingResult := .BLOCKED "Bot is paused by user" }, false), [])
  else
    -- Stage 3: gating check (or the skipGating short-circuit)
    let skip : Bool := match options with
      | some o => o.skipGating
      | none => false
    let gatingStep : GatingResult × List Effect :=
      if skip then (.PROCEED, [])
      else (checkGating env.gatingConfig env.now env.lastCheckin, [.gatingEvaluated])
    match gatingStep with
    | (.BLOCKED reason, fx) =>
      (.ok ({ cycleId := env.cycleId, startedAt := env.nowIso, completedAt := env.nowIso,
              gatingResult := .BLOCKED reason }, false), fx)
    | (.PROCEED, fx) =>
      -- Stage 1: collect data (settle-all join; never throws)
      let context := collectContext env.emailResult env.calendarResult env.taskResult
        env.partnerships env.memory env.recentCheckins env.nowIso
      let fx := fx ++ [.fetchedSources]
      -- Stage 2: enrich (a thrown enrichment error propagates to the catch)
      match env.enrichResult context.emails with
      | .error e => (.error e, fx)
      | .ok enriched =>
        let context := { context with emails := enriched }
        let fx := fx ++ [.enriched] ++ enriched.map (fun e => .emailMetaStored e.id)
        -- Clean expired snoozes
        match env.cleanResult with
        | .error e => (.error e, fx)
        | .ok _ =>
          let fx := fx ++ [.snoozesCleaned]
          -- Stage 4: decision (never throws; falls back internally)
          let decision := makeDecision env.engineOutcome
          let fx := fx ++ [.decisionRequested]
          -- Stage 5: act — send all decisions to Telegram
          let notifyStep : Except String Unit × Effect :=
            if decision.decision == .TEXT || decision.decision == .CALL then
              (env.notifyDecisionResult, .notifiedDecision)
            else
              (env.notifyNoneResult, .notifiedNone)
          match notifyStep with
          | (.error e, _) => (.error e, fx)
          | (.ok _, notifyFx) =>
            let fx := fx ++ [notifyFx]
            -- Log the check-in
            match env.logCheckinResult with
            | .error e => (.error e, fx)
            | .ok _ =>
              let fx := fx ++ [.checkinLogged]
              (.ok ({ cycleId := env.cycleId, startedAt := env.nowIso,
                      completedAt := env.nowIso,
                      gatingResult := .PROCEED,
                      context := some context,
                      decision := some decision,
                      actionTaken :=
                        if decision.decision == .NONE then
                          some "No action needed"
                        else
                          some ("Sent " ++ decision.decision.str ++
                            " notification (urgency " ++ toString decision.urgency ++ ")") },
                    true), fx)

/-- `runCycle` from `src/scheduler.ts`.  The single-flight guard is checked
first; otherwise the body runs with `_isRunning` set, its thrown errors are
caught (attempting a best-effort plain-text notification whose own outcome is
ignored), and the `finally` clause clears the guard. -/
def runCycle (st : SchedulerState) (env : EnvCycle) (options : Option CycleOptions) :
    CycleResult × SchedulerState × List Effect :=
  if st.isRunning then
    ({ cycleId := "skipped", startedAt := env.nowIso, completedAt := env.nowIso,
       gatingResult := .BLOCKED "Previous cycle still running" }, st, [])
  else
    match runCycleBody env options with
    | (.ok (result, completed), fx) =>
      (result,
       { isRunning := false,
         lastCycleResult := if completed then some result else st.lastCycleResult },
       fx)
    | (.error msg, fx) =>
      ({ cycleId := env.cycleId, startedAt := env.nowIso, completedAt := env.nowIso,
         gatingResult := .PROCEED,
         actionTaken := some ("Error: " ++ msg) },
       { isRunning := false, lastCycleResult := st.lastCycleResult },
       fx ++ [.plainNotifyAttempted])

/-- The first-run-after-startup trigger: `main` in `src/index.ts` runs the
initial cycle as `await runCycle()` — with no options argument. -/
def startupInitialCycle (st : SchedulerState) (env : EnvCycle) :
    CycleResult × SchedulerState × List Effect :=
  runCycle st env none

/-- The manual "run now" trigger: the `/force` handler wired in
`startScheduler` calls `runCycle({ skipGating: true })`. -/
def forceCheckCycle (st : SchedulerState) (env : EnvCycle) :
    CycleResult × SchedulerState × List Effect :=
  runCycle st env (some { skipGating := true })

/-! ## Concrete sample inputs used to exercise the definitions -/

/-- 09:30 on a Wednesday (minutes since midnight = 570). -/
def now0930 : Instant := { dayOfWeek := 3, minutesOfDay := 570, epochMs := 0 }

/-- 23:00 on a Thursday (minutes since midnight = 1380). -/
def now2300 : Instant := { dayOfWeek := 4, minutesOfDay := 1380, epochMs := 0 }

/-- 06:30 on a Tuesday (minutes since midnight = 390). -/
def now0630 : Instant := { dayOfWeek := 2, minutesOfDay := 390, epochMs := 0 }

/-- Noon on a Monday (minutes since midnight = 720). -/
def nowNoon : Instant := { dayOfWeek := 1, minutesOfDay := 720, epochMs := 0 }

/-- Default config with focus hours widened to 06:00–10:00, so that
06:30 lies inside both the focus window and the 22:00–07:00 quiet window. -/
def overlapConfig : GatingConfig :=
  { DEFAULT_GATING_CONFIG with focusHours := { start := ⟨6, 0⟩, «end» := ⟨10, 0⟩ } }

/-- A raw tool input whose decision string is not one of NONE/TEXT/CALL. -/
def maybeInput : RawToolInput :=
  { decision := "MAYBE", urgency := 15, summary := "check this", reasoning := "maybe",
    actionButtons := some [], spokenBriefing := none }

/-- A benign environment: idle collaborators, nothing fails, noon on a
Monday, empty data sources, a valid NONE decision from the engine. -/
def benignEnv : EnvCycle :=
  { nowIso := "2026-10-11T12:00:00.000Z"
    cycleId := "cyc_20261011_120000_test"
    paused := false
    gatingConfig := DEFAULT_GATING_CONFIG
    now := nowNoon
    lastCheckin := none
    emailResult := .ok []
    calendarResult := .ok []
    taskResult := .ok []
    partnerships := []
    memory := []
    recentCheckins := []
    enrichResult := fun es => .ok es
    cleanResult := .ok 0
    engineOutcome := .toolInput
      { decision := "NONE", urgency := 2, summary := "all clear", reasoning := "routine",
        actionButtons := some [], spokenBriefing := none }
    notifyDecisionResult := .ok ()
    notifyNoneResult := .ok ()
    logCheckinResult := .ok ()
    plainNotifyResult := .ok () }

/-- The benign environment observed at 23:00, inside default quiet hours. -/
def quietHoursEnv : EnvCycle := { benignEnv with now := now2300 }

/-- The benign environment with an enrichment stage that throws. -/
def enrichFailEnv : EnvCycle :=
  { benignEnv with enrichResult := fun _ => .error "boom" }

/-! ## Claims -/

/-- C1: the gating rules are evaluated in strict precedence order with the
first matching rule winning; whenever an instant is inside both the
focus-hours window and the quiet-hours window, `checkGating` blocks with the
focus-hours reason, and in the spec scenario (now = 09:30, focus hours
07:00–10:00, quiet hours 22:00–07:00) the result is BLOCKED with the
focus-hours reason, which differs from the quiet-hours reason. -/
theorem checkGating_focus_precedes_quiet
    (config : GatingConfig) (now : Instant) (lastCheckin : Option ℚ)
    (hFocus : rangeActive now config.focusHours = true)
    (_hQuiet : rangeActive now config.quietHours = true) :
    checkGating config now lastCheckin = .BLOCKED (focusReason config)
    ∧ checkGating DEFAULT_GATING_CONFIG now0930 none
        = .BLOCKED "Focus hours (07:00–10:00). Zero interruptions."
    ∧ focusReason DEFAULT_GATING_CONFIG ≠ quietReason DEFAULT_GATING_CONFIG := by
  refine ⟨?_, by decide, by decide⟩
  unfold checkGating
  simp [hFocus]

/-- Witness for C1 at a concrete overlap: 06:30 with focus hours 06:00–10:00
and quiet hours 22:00–07:00 lies in both windows, and gating blocks with the
focus-hours reason. -/
theorem checkGating_focus_precedes_quiet_witness :
    (rangeActive now0630 overlapConfig.focusHours = true
      ∧ rangeActive now0630 overlapConfig.quietHours = true)
    ∧ (checkGating overlapConfig now0630 none = .BLOCKED (focusReason overlapConfig)
        ∧ checkGating DEFAULT_GATING_CONFIG now0930 none
            = .BLOCKED "Focus hours (07:00–10:00). Zero interruptions."
        ∧ focusReason DEFAULT_GATING_CONFIG ≠ quietReason DEFAULT_GATING_CONFIG) :=
  ⟨⟨by decide, by decide⟩,
    checkGating_focus_precedes_quiet overlapConfig now0630 none (by decide) (by decide)⟩

/-- C4: for every instant inside the configured quiet-hours window the gate
blocks, regardless of cooldown or weekend state, and `isInTimeRange` is
active exactly when (start ≤ end and start ≤ now < end) or (start > end and
(now ≥ start or now < end)). -/
theorem checkGating_quiet_always_blocks
    (config : GatingConfig) (now : Instant) (lastCheckin : Option ℚ)
    (hQuiet : rangeActive now config.quietHours = true) :
    (checkGating config now lastCheckin).isBlocked = true
    ∧ ∀ current start stop : ℤ,
        isInTimeRange current start stop = true ↔
          ((start ≤ stop ∧ start ≤ current ∧ current < stop)
            ∨ (start > stop ∧ (current ≥ start ∨ current < stop))) := by
  constructor
  · unfold checkGating
    cases hFocus : rangeActive now config.focusHours
    · simp [hFocus, hQuiet, GatingResult.isBlocked]
    · simp [hFocus, GatingResult.isBlocked]
  · intro current start stop
    unfold isInTimeRange
    split
    · simp only [Bool.or_eq_true, decide_eq_true_eq]
      omega
    · simp only [Bool.and_eq_true, decide_eq_true_eq]
      omega

/-- Witness for C4: 23:00 is inside the default 22:00–07:00 quiet window and
the gate blocks there. -/
theorem checkGating_quiet_always_blocks_witness :
    rangeActive now2300 DEFAULT_GATING_CONFIG.quietHours = true
    ∧ (checkGating DEFAULT_GATING_CONFIG now2300 none).isBlocked = true :=
  ⟨by decide,
    (checkGating_quiet_always_blocks DEFAULT_GATING_CONFIG now2300 none (by decide)).1⟩

/-- C10: with an empty check-in log `getLastCheckinTimestamp` returns null,
and with no last check-in the cooldown rule never fires: at any instant not
matched by the focus-hours, quiet-hours, weekend-quiet or pickup-window
rules, `checkGating` returns PROCEED (`f` is the timestamp-parsing function
applied to a non-null result). -/
theorem checkGating_first_cycle_no_cooldown
    (config : GatingConfig) (now : Instant) (f : String → ℚ)
    (hFocus : rangeActive now config.focusHours = false)
    (hQuiet : rangeActive now config.quietHours = false)
    (hWeekend : ((now.dayOfWeek == 0 || now.dayOfWeek == 6)
        && config.weekendMode == WeekendMode.quiet) = false)
    (hPickup : findPickupBlock now config.pickupReminderMinutes config.pickupTimes
        = none) :
    getLastCheckinTimestamp [] = none
    ∧ checkGating config now ((getLastCheckinTimestamp []).map f) = .PROCEED := by
  refine ⟨rfl, ?_⟩
  unfold checkGating
  simp [hFocus, hQuiet, hWeekend, hPickup, getLastCheckinTimestamp]

/-- Witness for C10: noon on a Monday under the default config (no pickup
times, empty check-in log) proceeds. -/
theorem checkGating_first_cycle_no_cooldown_witness :
    (rangeActive nowNoon DEFAULT_GATING_CONFIG.focusHours = false
      ∧ rangeActive nowNoon DEFAULT_GATING_CONFIG.quietHours = false
      ∧ ((nowNoon.dayOfWeek == 0 || nowNoon.dayOfWeek == 6)
          && DEFAULT_GATING_CONFIG.weekendMode == WeekendMode.quiet) = false
      ∧ findPickupBlock nowNoon DEFAULT_GATING_CONFIG.pickupReminderMinutes
          DEFAULT_GATING_CONFIG.pickupTimes = none)
    ∧ (getLastCheckinTimestamp [] = none
        ∧ checkGating DEFAULT_GATING_CONFIG nowNoon
            ((getLastCheckinTimestamp []).map fun _ => 0) = .PROCEED) :=
  ⟨⟨by decide, by decide, by decide, by decide⟩,
    checkGating_first_cycle_no_cooldown DEFAULT_GATING_CONFIG nowNoon (fun _ => 0)
      (by decide) (by decide) (by decide) (by decide)⟩

/-- C3: every raw decision response whose decision string is not exactly
NONE/TEXT/CALL, and every transport/parse failure of the upstream call,
yields the deterministic fallback {NONE, urgency 0, error-derived summary and
reasoning, empty actionButtons}; in particular the raw response
{decision:"MAYBE", urgency:15} yields NONE with urgency 0. -/
theorem makeDecision_invalid_falls_back
    (input : RawToolInput) (msg : String)
    (hInvalid : input.decision ∉ validDecisions) :
    makeDecision (.toolInput input)
        = fallbackDecision ("Invalid decision: " ++ input.decision)
    ∧ makeDecision (.apiError msg) = fallbackDecision ("API error: " ++ msg)
    ∧ makeDecision .noToolUse
        = fallbackDecision "Claude did not return structured response"
    ∧ (∀ r, (fallbackDecision r).decision = .NONE
        ∧ (fallbackDecision r).urgency = 0
        ∧ (fallbackDecision r).actionButtons = []
        ∧ (fallbackDecision r).summary = "Decision engine error: " ++ r
        ∧ (fallbackDecision r).reasoning = "Fallback due to error: " ++ r)
    ∧ (makeDecision (.toolInput maybeInput)).decision = .NONE
    ∧ (makeDecision (.toolInput maybeInput)).urgency = 0 := by
  refine ⟨?_, rfl, rfl, fun r => ⟨rfl, rfl, rfl, rfl, rfl⟩, by decide, by decide⟩
  have h : decisionOfString input.decision = none := by
    simp only [validDecisions, List.mem_cons, List.not_mem_nil, or_false,
      not_or] at hInvalid
    obtain ⟨h1, h2, h3⟩ := hInvalid
    simp [decisionOfString, h1, h2, h3]
  simp [makeDecision, h]

/-- Witness for C3 at the concrete invalid input {decision:"MAYBE",
urgency:15} and a concrete transport error "timeout". -/
theorem makeDecision_invalid_falls_back_witness :
    maybeInput.decision ∉ validDecisions
    ∧ (makeDecision (.toolInput maybeInput)
          = fallbackDecision ("Invalid decision: " ++ maybeInput.decision)
        ∧ makeDecision (.apiError "timeout")
            = fallbackDecision "API error: timeout"
        ∧ makeDecision .noToolUse
            = fallbackDecision "Claude did not return structured response"
        ∧ (∀ r, (fallbackDecision r).decision = .NONE
            ∧ (fallbackDecision r).urgency = 0
            ∧ (fallbackDecision r).actionButtons = []
            ∧ (fallbackDecision r).summary = "Decision engine error: " ++ r
            ∧ (fallbackDecision r).reasoning = "Fallback due to error: " ++ r)
        ∧ (makeDecision (.toolInput maybeInput)).decision = .NONE
        ∧ (makeDecision (.toolInput maybeInput)).urgency = 0) :=
  ⟨by decide, by
    have h := makeDecision_invalid_falls_back maybeInput "timeout" (by decide)
    simpa using h⟩

/-- C8: on every raw response with a valid decision kind, the returned
urgency is the raw urgency rounded to nearest (JS `Math.round`) and clamped
into [1,10], hence always an integer between 1 and 10. -/
theorem makeDecision_urgency_clamped
    (input : RawToolInput)
    (hValid : input.decision ∈ validDecisions) :
    (makeDecision (.toolInput input)).urgency
        = ((max 1 (min 10 (jsRound input.urgency)) : ℤ) : ℚ)
    ∧ 1 ≤ (makeDecision (.toolInput input)).urgency
    ∧ (makeDecision (.toolInput input)).urgency ≤ 10 := by
  have hd : ∃ d, decisionOfString input.decision = some d := by
    simp only [validDecisions, List.mem_cons, List.not_mem_nil, or_false] at hValid
    rcases hValid with h | h | h <;> simp [decisionOfString, h]
  obtain ⟨d, hd⟩ := hd
  have heq : (makeDecision (.toolInput input)).urgency
      = ((max 1 (min 10 (jsRound input.urgency)) : ℤ) : ℚ) := by
    simp [makeDecision, hd]
  refine ⟨heq, ?_, ?_⟩
  · rw [heq]
    exact_mod_cast le_max_left (1 : ℤ) (min 10 (jsRound input.urgency))
  · rw [heq]
    have h10 : max 1 (min 10 (jsRound input.urgency)) ≤ (10 : ℤ) :=
      max_le (by norm_num) (min_le_left _ _)
    exact_mod_cast h10

/-- Witness for C8 at the concrete valid input {decision:"TEXT", urgency:15}. -/
theorem makeDecision_urgency_clamped_witness :
    ({ decision := "TEXT", urgency := 15, summary := "s", reasoning := "r",
       actionButtons := some [], spokenBriefing := none : RawToolInput }).decision
        ∈ validDecisions
    ∧ ((makeDecision (.toolInput
          { decision := "TEXT", urgency := 15, summary := "s", reasoning := "r",
            actionButtons := some [], spokenBriefing := none })).urgency
        = ((max 1 (min 10 (jsRound (15 : ℚ))) : ℤ) : ℚ)
      ∧ 1 ≤ (makeDecision (.toolInput
          { decision := "TEXT", urgency := 15, summary := "s", reasoning := "r",
            actionButtons := some [], spokenBriefing := none })).urgency
      ∧ (makeDecision (.toolInput
          { decision := "TEXT", urgency := 15, summary := "s", reasoning := "r",
            actionButtons := some [], spokenBriefing := none })).urgency ≤ 10) :=
  ⟨by decide, makeDecision_urgency_clamped _ (by decide)⟩

/-- C7: if exactly one of the three fetches fails, `collectContext` still
returns a context with the other two sources populated and listed in
`sourcesAvailable`, and the failing source name with its error message in
`sourceErrors` (one conjunct per failing source). -/
theorem collectContext_partial_failure :
    (∀ (msg : String) (cs : List CalendarEvent) (ts : List TodoTask)
        (ps : List PartnershipInfo) (mem : List MemoryEntry)
        (rc : List CheckinLogEntry) (cAt : String),
      (collectContext (.error msg) (.ok cs) (.ok ts) ps mem rc cAt).emails = []
      ∧ (collectContext (.error msg) (.ok cs) (.ok ts) ps mem rc cAt).calendar = cs
      ∧ (collectContext (.error msg) (.ok cs) (.ok ts) ps mem rc cAt).tasks = ts
      ∧ (collectContext (.error msg) (.ok cs) (.ok ts) ps mem rc cAt).sourcesAvailable
          = ["calendar", "tasks", "local_db"]
      ∧ (collectContext (.error msg) (.ok cs) (.ok ts) ps mem rc cAt).sourceErrors
          = ["email: " ++ msg])
    ∧ (∀ (es : List EmailMessage) (msg : String) (ts : List TodoTask)
        (ps : List PartnershipInfo) (mem : List MemoryEntry)
        (rc : List CheckinLogEntry) (cAt : String),
      (collectContext (.ok es) (.error msg) (.ok ts) ps mem rc cAt).emails = es
      ∧ (collectContext (.ok es) (.error msg) (.ok ts) ps mem rc cAt).calendar = []
      ∧ (collectContext (.ok es) (.error msg) (.ok ts) ps mem rc cAt).tasks = ts
      ∧ (collectContext (.ok es) (.error msg) (.ok ts) ps mem rc cAt).sourcesAvailable
          = ["email", "tasks", "local_db"]
      ∧ (collectContext (.ok es) (.error msg) (.ok ts) ps mem rc cAt).sourceErrors
          = ["calendar: " ++ msg])
    ∧ (∀ (es : List EmailMessage) (cs : List CalendarEvent) (msg : String)
        (ps : List PartnershipInfo) (mem : List MemoryEntry)
        (rc : List CheckinLogEntry) (cAt : String),
      (collectContext (.ok es) (.ok cs) (.error msg) ps mem rc cAt).emails = es
      ∧ (collectContext (.ok es) (.ok cs) (.error msg) ps mem rc cAt).calendar = cs
      ∧ (collectContext (.ok es) (.ok cs) (.error msg) ps mem rc cAt).tasks = []
      ∧ (collectContext (.ok es) (.ok cs) (.error msg) ps mem rc cAt).sourcesAvailable
          = ["email", "calendar", "local_db"]
      ∧ (collectContext (.ok es) (.ok cs) (.error msg) ps mem rc cAt).sourceErrors
          = ["tasks: " ++ msg]) :=
  ⟨fun _ _ _ _ _ _ _ => ⟨rfl, rfl, rfl, rfl, rfl⟩,
   fun _ _ _ _ _ _ _ => ⟨rfl, rfl, rfl, rfl, rfl⟩,
   fun _ _ _ _ _ _ _ => ⟨rfl, rfl, rfl, rfl, rfl⟩⟩

/-- Updating `snooze_until` leaves the row key (and hence row matching)
unchanged. -/
lemma rowMatches_update (ty : SourceType) (sid : String) (u : String)
    (r : SnoozedRow) :
    rowMatches ty sid { r with snoozeUntil := u } = rowMatches ty sid r := rfl

/-- After one `snoozeItem` upsert on a store holding at most one row for the
key, the key holds exactly one row, whose `snooze_until` is the new expiry. -/
lemma snoozeItem_filter_eq (store : List SnoozedRow) (ty : SourceType)
    (sid : String) (u n : String)
    (h : (store.filter (rowMatches ty sid)).length ≤ 1) :
    ((snoozeItem store ty sid u n).filter (rowMatches ty sid)).map
      SnoozedRow.snoozeUntil = [u] := by
  unfold snoozeItem
  cases hAny : store.any (rowMatches ty sid) with
  | false =>
    have hNil : store.filter (rowMatches ty sid) = [] := by
      rw [List.filter_eq_nil_iff]
      intro a ha
      have := List.any_eq_false.mp hAny a ha
      simpa using this
    have hNew : rowMatches ty sid
        { sourceType := ty, sourceId := sid, snoozeUntil := u, createdAt := n }
          = true := by
      simp [rowMatches]
    simp [hAny, List.filter_append, hNil, hNew]
  | true =>
    obtain ⟨r0, hr0, hpr0⟩ := List.any_eq_true.mp hAny
    have hlen1 : (store.filter (rowMatches ty sid)).length = 1 := by
      have hmem : r0 ∈ store.filter (rowMatches ty sid) :=
        List.mem_filter.mpr ⟨hr0, hpr0⟩
      have hpos : 0 < (store.filter (rowMatches ty sid)).length :=
        List.length_pos.mpr (List.ne_nil_of_mem hmem)
      omega
    obtain ⟨r1, hr1⟩ := List.length_eq_one.mp hlen1
    have hpr1 : rowMatches ty sid r1 = true := by
      have hm : r1 ∈ store.filter (rowMatches ty sid) := by
        rw [hr1]; exact List.mem_singleton_self r1
      exact (List.mem_filter.mp hm).2
    have hcomp : (rowMatches ty sid ∘ fun r =>
        if rowMatches ty sid r then { r with snoozeUntil := u } else r)
        = rowMatches ty sid := by
      funext r
      by_cases hpr : rowMatches ty sid r = true
      · simp [Function.comp_apply, hpr, rowMatches_update]
      · simp [Function.comp_apply, hpr]
    rw [if_pos rfl, List.filter_map, hcomp, hr1]
    simp [hpr1]

/-- C9: snoozing the same (sourceType, sourceId) pair twice with different
expiries leaves exactly one stored row for the pair, whose `snooze_until` is
the expiry of the most recent call — re-snoozing overwrites, with no
duplicate rows and no stacking.  (The hypothesis is the UNIQUE(source_type,
source_id) constraint of the table.) -/
theorem snoozeItem_resnooze_overwrites
    (store : List SnoozedRow) (ty : SourceType) (sid : String)
    (expiry1 expiry2 created1 created2 : String)
    (hUnique : (store.filter (rowMatches ty sid)).length ≤ 1) :
    ((snoozeItem (snoozeItem store ty sid expiry1 created1) ty sid expiry2 created2).filter
        (rowMatches ty sid)).map SnoozedRow.snoozeUntil = [expiry2] := by
  have h1 := snoozeItem_filter_eq store ty sid expiry1 created1 hUnique
  have hlen : ((snoozeItem store ty sid expiry1 created1).filter
      (rowMatches ty sid)).length ≤ 1 := by
    have hmapLen := congrArg List.length h1
    simpa using Nat.le_of_eq hmapLen
  exact snoozeItem_filter_eq _ ty sid expiry2 created2 hlen

/-- Witness for C9: an empty store snoozed twice for (email, "abc") holds one
row with the second expiry. -/
theorem snoozeItem_resnooze_overwrites_witness :
    (([] : List SnoozedRow).filter (rowMatches .email "abc")).length ≤ 1
    ∧ ((snoozeItem (snoozeItem [] .email "abc" "2026-01-01" "t1")
          .email "abc" "2026-02-02" "t2").filter
        (rowMatches .email "abc")).map SnoozedRow.snoozeUntil = ["2026-02-02"] :=
  ⟨by decide,
    snoozeItem_resnooze_overwrites [] .email "abc" "2026-01-01" "2026-02-02"
      "t1" "t2" (by decide)⟩

/-- C2: invoking `runCycle` while the in-memory single-flight guard is set
returns immediately with BLOCKED "Previous cycle still running" (the exact
code string; it matches the claim phrase up to capitalisation), leaves the
scheduler state untouched, and performs no work at all — the collaborator
trace is empty: no gating evaluation, no fetch, no reasoning call, no
notification, no store write. -/
theorem runCycle_single_flight
    (st : SchedulerState) (env : EnvCycle) (options : Option CycleOptions)
    (hRunning : st.isRunning = true) :
    runCycle st env options =
      ({ cycleId := "skipped", startedAt := env.nowIso, completedAt := env.nowIso,
         gatingResult := .BLOCKED "Previous cycle still running" }, st, []) := by
  simp [runCycle, hRunning]

/-- Witness for C2: a concrete call with the guard set. -/
theorem runCycle_single_flight_witness :
    (({ isRunning := true, lastCycleResult := none } : SchedulerState).isRunning
        = true)
    ∧ runCycle { isRunning := true, lastCycleResult := none } benignEnv none =
        ({ cycleId := "skipped", startedAt := benignEnv.nowIso,
           completedAt := benignEnv.nowIso,
           gatingResult := .BLOCKED "Previous cycle still running" },
         { isRunning := true, lastCycleResult := none }, []) :=
  ⟨rfl, runCycle_single_flight { isRunning := true, lastCycleResult := none }
    benignEnv none rfl⟩

/-- C5: `runCycle` never propagates a failure of the cycle body: whatever
error the body throws, the caller receives a `CycleResult` whose
`actionTaken` describes the error, after the catch handler attempts the
plain-text error notification, and the outcome of that notification attempt
(success or failure) has no influence on anything `runCycle` returns. -/
theorem runCycle_catches_all_failures
    (st : SchedulerState) (env : EnvCycle) (options : Option CycleOptions)
    (msg : String) (fx : List Effect)
    (hIdle : st.isRunning = false)
    (hBody : runCycleBody env options = (.error msg, fx)) :
    (runCycle st env options).1.actionTaken = some ("Error: " ++ msg)
    ∧ (runCycle st env options).2.2 = fx ++ [.plainNotifyAttempted]
    ∧ ∀ r : Except String Unit,
        runCycle st { env with plainNotifyResult := r } options
          = runCycle st env options := by
  refine ⟨?_, ?_, ?_⟩
  · simp [runCycle, hIdle, hBody]
  · simp [runCycle, hIdle, hBody]
  · intro r
    cases env
    rfl

/-- Witness for C5: an enrichment stage throwing "boom" after a bypassed
gate yields an error result with the fetch already traced. -/
theorem runCycle_catches_all_failures_witness :
    (({ isRunning := false, lastCycleResult := none } : SchedulerState).isRunning
        = false)
    ∧ runCycleBody enrichFailEnv (some { skipGating := true })
        = (.error "boom", [.fetchedSources])
    ∧ ((runCycle { isRunning := false, lastCycleResult := none } enrichFailEnv
          (some { skipGating := true })).1.actionTaken = some ("Error: " ++ "boom")
      ∧ (runCycle { isRunning := false, lastCycleResult := none } enrichFailEnv
          (some { skipGating := true })).2.2
            = [.fetchedSources] ++ [.plainNotifyAttempted]
      ∧ ∀ r : Except String Unit,
          runCycle { isRunning := false, lastCycleResult := none }
              { enrichFailEnv with plainNotifyResult := r }
              (some { skipGating := true })
            = runCycle { isRunning := false, lastCycleResult := none } enrichFailEnv
              (some { skipGating := true })) :=
  ⟨rfl, rfl,
    runCycle_catches_all_failures { isRunning := false, lastCycleResult := none }
      enrichFailEnv (some { skipGating := true }) "boom" [.fetchedSources] rfl rfl⟩

/-- C6 (divergence witness): the claim says both the first-run-after-startup
trigger and the manual /force trigger skip gating.  The /force path indeed
short-circuits to PROCEED without evaluating `checkGating`, but `main` runs
the initial cycle as plain `runCycle()` — so on the startup path the gate IS
evaluated and, during quiet hours, the very first cycle is BLOCKED instead of
proceeding to collection (contradicting the scheduler comment "skipped for
startup and /force"). -/
theorem startup_trigger_does_not_skip_gating :
    (startupInitialCycle { isRunning := false, lastCycleResult := none }
        quietHoursEnv).1.gatingResult = .BLOCKED (quietReason DEFAULT_GATING_CONFIG)
    ∧ Effect.gatingEvaluated ∈
        (startupInitialCycle { isRunning := false, lastCycleResult := none }
          quietHoursEnv).2.2
    ∧ (forceCheckCycle { isRunning := false, lastCycleResult := none }
        quietHoursEnv).1.gatingResult = .PROCEED
    ∧ Effect.gatingEvaluated ∉
        (forceCheckCycle { isRunning := false, lastCycleResult := none }
          quietHoursEnv).2.2
    ∧ Effect.fetchedSources ∈
        (forceCheckCycle { isRunning := false, lastCycleResult := none }
          quietHoursEnv).2.2 := by
  refine ⟨by decide, by decide, by decide, by decide, by decide⟩

end SmartCheckins
